import Mathlib

/-!
Verification of the retris core (occupancy grid, active piece, score engine,
game-loop level transition) against its specification.

Shallow embedding conventions:
* `i32`/`usize` coordinates are `Int`/`Nat`; all coordinate arithmetic in the
  source stays far from the `i32` range, so no wrap-around modelling is needed.
* `u32`/`u64` score arithmetic wraps, so the score engine reduces modulo
  `2 ^ 32` / `2 ^ 64` exactly where the Rust operations can overflow.
* Each per-row `HashMap<i32, T>` of `GameTable` is modelled densely as a
  `List (Option T)` of length `columns`: `GameTable::set` drops every
  out-of-bounds key, so the reachable key set of a row is a subset of
  `[0, columns)` and the dense view is exact.  `data` is the list of rows,
  row `0` first, matching `Vec` indexing.
* `f32` values that the source keeps integral (shape offsets, which are only
  negated/swapped/rounded) are `Int`; `f32` timers and pixel sizes are `ℚ`
  (the branch structure of the code is arithmetic-exact in an ordered field).
* Rendering, audio, input plumbing and persistence are outside the core and
  are omitted; functions that only print diagnostics keep their value
  semantics.
-/

/-- Embedding of `egor::render::Color`, an external opaque-to-the-core rendering type;
modelled as an abstract identifier. -/
abbrev Color := Nat

/-- Number of keys of a row map: `HashMap::len` of a dense row
(`src/src/game_data.rs`, a row's `len()`). -/
def countSome {T : Type} (row : List (Option T)) : Nat :=
  row.countP (fun c => c.isSome)

/-- Total number of stored cells of a table, the termination measure of the
line-clear loop. -/
def totalSome {T : Type} (data : List (List (Option T))) : Nat :=
  (data.map countSome).sum

/-- Embedding of `GameTable<T>` from `src/src/game_data.rs`: `columns`, `rows`, and the
per-row maps (dense view of `Vec<HashMap<i32, T>>`). -/
structure GameTable (T : Type) where
  columns : Nat
  rows : Nat
  data : List (List (Option T))

namespace GameTable

/-- Embedding of `GameTable::new`. -/
def new (T : Type) (columns rows : Nat) : GameTable T :=
  ⟨columns, rows, List.replicate rows (List.replicate columns none)⟩

/-- Embedding of `GameTable::is_valid_position`. -/
def is_valid_position {T : Type} (t : GameTable T) (col row : Int) : Bool :=
  decide (0 ≤ col) && decide (col < (t.columns : Int)) &&
    decide (0 ≤ row) && decide (row < (t.rows : Int))

/-- Embedding of `GameTable::get`. -/
def get {T : Type} (t : GameTable T) (col row : Int) : Option T :=
  if t.is_valid_position col row then
    (t.data.getD row.toNat []).getD col.toNat none
  else none

/-- Embedding of `GameTable::set` (the returned previous value is unused by the core and
dropped here). -/
def set {T : Type} (t : GameTable T) (col row : Int) (v : T) : GameTable T :=
  if t.is_valid_position col row then
    { t with data :=
        t.data.set row.toNat ((t.data.getD row.toNat []).set col.toNat (some v)) }
  else t

/-- Embedding of `GameTable::has`. -/
def has {T : Type} (t : GameTable T) (col row : Int) : Bool :=
  t.is_valid_position col row &&
    ((t.data.getD row.toNat []).getD col.toNat none).isSome

/-- Embedding of `GameTable::is_row_full`: the row map holds exactly `columns` keys. -/
def is_row_full {T : Type} (t : GameTable T) (row : Int) : Bool :=
  t.is_valid_position 0 row && (countSome (t.data.getD row.toNat []) == t.columns)

/-- Embedding of `GameTable::remove_row_and_shift_down`: clear row `row`, then move every
row above it down by one (the drained top row becomes empty). -/
def remove_row_and_shift_down {T : Type} (t : GameTable T) (row : Int) :
    GameTable T × Bool :=
  if t.is_valid_position 0 row then
    ({ t with data :=
        List.replicate t.columns (none : Option T) ::
          (t.data.take row.toNat ++ t.data.drop (row.toNat + 1)) }, true)
  else (t, false)

end GameTable

/-- Embedding of `SPAWN_ROWS` from `src/src/grid.rs`. -/
def SPAWN_ROWS : Nat := 4

/-- Embedding of `CascadingCell` from `src/src/grid.rs` (pixel quantities as `ℚ`). -/
structure CascadingCell where
  col : Int
  row : Int
  color : Color
  offset_y : ℚ
  velocity : ℚ

/-- Embedding of `Grid` from `src/src/grid.rs`.  The pixel-layout fields that only feed
rendering (`position`, `visible_position`) are omitted. -/
structure Grid where
  width : Nat
  height : Nat
  visible_height : Nat
  cell_size : ℚ
  occupied_cells : GameTable Color
  cascading_cells : List CascadingCell
  is_cascading : Bool

namespace Grid

/-- Embedding of `Grid::new` (the pixel-layout computation is rendering-only; the resulting
`cell_size` is taken as a parameter). -/
def new (width_cells visible_height_cells : Nat) (cell_size : ℚ) : Grid :=
  { width := width_cells
    height := visible_height_cells + SPAWN_ROWS
    visible_height := visible_height_cells
    cell_size := cell_size
    occupied_cells := GameTable.new Color width_cells (visible_height_cells + SPAWN_ROWS)
    cascading_cells := []
    is_cascading := false }

/-- Embedding of `Grid::is_cell_occupied`: out of bounds counts as occupied. -/
def is_cell_occupied (g : Grid) (cell_x cell_y : Int) : Bool :=
  if cell_x < 0 ∨ (g.width : Int) ≤ cell_x ∨ cell_y < 0 ∨ (g.height : Int) ≤ cell_y then
    true
  else g.occupied_cells.has cell_x cell_y

/-- Embedding of `Grid::can_move_down`: always true while any cell is above the grid;
otherwise false iff some cell is at the bottom or has an occupied cell below. -/
def can_move_down (g : Grid) (shape_cells : List (Int × Int)) : Bool :=
  if shape_cells.any (fun c => decide (c.2 < 0)) then true
  else
    shape_cells.all (fun c =>
      decide (c.2 + 1 < (g.height : Int)) && !(g.occupied_cells.has c.1 (c.2 + 1)))

end Grid

/-- The `while row_y >= SPAWN_ROWS` loop body of `Grid::clear_completed_lines`
(`src/src/grid.rs` lines 252-273).  `fuel` is a structural bound on the number
of iterations; the source loop terminates for the same reason the bound
`totalSome + (row_y + 1)` decreases each iteration: a cleared row was full, so
it held `columns ≥ 1` cells, and otherwise `row_y` decreases. -/
def clearLoop {T : Type} (fuel : Nat) (t : GameTable T) (rowY : Int) (count : Nat) :
    GameTable T × Nat :=
  match fuel with
  | 0 => (t, count)
  | fuel + 1 =>
    if (SPAWN_ROWS : Int) ≤ rowY then
      if t.is_row_full rowY then
        let r := t.remove_row_and_shift_down rowY
        if r.2 then clearLoop fuel r.1 rowY (count + 1)
        else clearLoop fuel r.1 (rowY - 1) count
      else clearLoop fuel t (rowY - 1) count
    else (t, count)

namespace Grid

/-- Embedding of `Grid::clear_completed_lines`: scan bottom-to-top from `height - 1` down to
the first visible row, re-testing a row index after each clear-and-shift.
Returns the updated grid and the number of rows cleared. -/
def clear_completed_lines (g : Grid) : Grid × Nat :=
  let r := clearLoop (totalSome g.occupied_cells.data + g.height + 1)
    g.occupied_cells ((g.height : Int) - 1) 0
  ({ g with occupied_cells := r.1 }, r.2)

/-- Embedding of `Grid::update_cascade_animation`. -/
def update_cascade_animation (g : Grid) (progress : ℚ) : Grid :=
  if !g.is_cascading then g
  else
    let visible_height_pixels : ℚ := (g.visible_height : ℚ) * g.cell_size
    let drop_distance : ℚ := visible_height_pixels + g.cell_size * 2
    { g with cascading_cells := g.cascading_cells.map (fun cell =>
        { cell with offset_y := progress * drop_distance * (cell.velocity / 800) }) }

/-- Embedding of `Grid::clear_cascade_animation`. -/
def clear_cascade_animation (g : Grid) : Grid :=
  { g with is_cascading := false, cascading_cells := [] }

end Grid

/-- Wrap-around modulus of `u64`. -/
def U64 : Nat := 2 ^ 64

/-- Wrap-around modulus of `u32`. -/
def U32 : Nat := 2 ^ 32

/-- The `rows_bonus_multiplier` match of `ScoreManager::on_rows_cleared`
(`src/src/game_data.rs` lines 295-301).  The default arm is the `u64`
computation `(1 << rows_cleared) - 1` with release-mode wrapping (`u64` shift
amounts are masked to 6 bits). -/
def rows_bonus_multiplier (rows_cleared : Nat) : Nat :=
  match rows_cleared with
  | 1 => 1
  | 2 => 3
  | 3 => 7
  | 4 => 15
  | _ => ((1 <<< (rows_cleared % 64)) - 1) % U64

/-- The `level_multiplier` match of `ScoreManager::on_rows_cleared`
(`src/src/game_data.rs` lines 320-326). -/
def level_multiplier (level_at_clear : Nat) : Nat :=
  if level_at_clear ≤ 4 then 1
  else if level_at_clear ≤ 9 then 2
  else if level_at_clear ≤ 14 then 3
  else if level_at_clear ≤ 19 then 5
  else 8

/-- Embedding of `ScoreManager` from `src/src/game_data.rs` (fields are `u64`/`u32` values,
kept reduced modulo `U64`/`U32` by the operations). -/
structure ScoreManager where
  score : Nat
  lines_cleared : Nat
  level : Nat
  current_multiplier : Nat
  combo_count : Nat
  high_score : Nat
  high_score_needs_sync : Bool
  base_points_per_row : Nat
  lines_per_level : Nat

namespace ScoreManager

/-- Embedding of `ScoreManager::new`; the high score read from the persistence boundary is
a parameter. -/
def new (stored_high_score : Nat) : ScoreManager :=
  { score := 0
    lines_cleared := 0
    level := 0
    current_multiplier := 1
    combo_count := 0
    high_score := stored_high_score
    high_score_needs_sync := false
    base_points_per_row := 137
    lines_per_level := 10 }

/-- Embedding of `ScoreManager::on_rows_cleared` (`src/src/game_data.rs` lines 270-357).
Returns the updated state and the awarded points.  `save_high_score` is a
persistence side effect outside the core and is dropped; every `u64`/`u32`
operation that can wrap reduces modulo `U64`/`U32`. -/
def on_rows_cleared (s : ScoreManager) (rows_cleared : Nat) : ScoreManager × Nat :=
  if rows_cleared = 0 then (s, 0)
  else
    let level_at_clear := s.level
    let lines_cleared' := (s.lines_cleared + rows_cleared) % U32
    let level' := lines_cleared' / s.lines_per_level
    let combo_count' := (s.combo_count + 1) % U32
    let rows_bonus := rows_bonus_multiplier rows_cleared
    let previous_multiplier := s.current_multiplier
    let combo_multiplier := (1 <<< ((combo_count' - 1) % 64)) % U64
    let level_mult := level_multiplier level_at_clear
    let points :=
      ((((s.base_points_per_row * rows_bonus % U64) * previous_multiplier % U64)
          * combo_multiplier % U64) * level_mult) % U64
    let score' := (s.score + points) % U64
    let new_high := decide (s.high_score < score')
    ({ s with
        score := score'
        lines_cleared := lines_cleared'
        level := level'
        current_multiplier := rows_bonus % U32
        combo_count := combo_count'
        high_score := if new_high then score' else s.high_score
        high_score_needs_sync := if new_high then true else s.high_score_needs_sync },
      points)

/-- Embedding of `ScoreManager::on_piece_landed_no_clear`. -/
def on_piece_landed_no_clear (s : ScoreManager) : ScoreManager :=
  { s with current_multiplier := 1, combo_count := 0 }

/-- Embedding of `ScoreManager::set_high_score`. -/
def set_high_score (s : ScoreManager) (high_score : Nat) : ScoreManager :=
  { s with high_score := high_score, high_score_needs_sync := false }

end ScoreManager

/-- Embedding of `ShapeDimension` from `src/src/tetris_shape.rs`: one relative `(x, y)`
offset from the pivot.  Stored as `f32` in the source but kept integral
throughout (only negated/swapped/rounded), so modelled as `Int`. -/
structure ShapeDimension where
  x : Int
  y : Int
deriving DecidableEq, Repr

namespace ShapeDimension

/-- Embedding of `ShapeDimension::rotate_clockwise`: `(x, y) → (y, -x)`. -/
def rotate_clockwise (d : ShapeDimension) : ShapeDimension :=
  ⟨d.y, -d.x⟩

/-- Embedding of `ShapeDimension::rotate_counter_clockwise`: `(x, y) → (-y, x)`. -/
def rotate_counter_clockwise (d : ShapeDimension) : ShapeDimension :=
  ⟨-d.y, d.x⟩

end ShapeDimension

/-- Embedding of `ShapeName` from `src/src/tetris_shape.rs`. -/
inductive ShapeName where
  | Straight (dims : List ShapeDimension)
  | Square (dims : List ShapeDimension)
  | Tee (dims : List ShapeDimension)
  | Ell (dims : List ShapeDimension)
  | Slew (dims : List ShapeDimension)
  | LetterT (dims : List ShapeDimension)
  | LetterE (dims : List ShapeDimension)
  | LetterR (dims : List ShapeDimension)
  | LetterI (dims : List ShapeDimension)
  | LetterS (dims : List ShapeDimension)
deriving DecidableEq, Repr

namespace ShapeName

/-- Embedding of `ShapeName::get_dimensions`. -/
def get_dimensions : ShapeName → List ShapeDimension
  | Straight dims => dims
  | Square dims => dims
  | Tee dims => dims
  | Ell dims => dims
  | Slew dims => dims
  | LetterT dims => dims
  | LetterE dims => dims
  | LetterR dims => dims
  | LetterI dims => dims
  | LetterS dims => dims

/-- Embedding of `ShapeName::is_gameplay_piece`. -/
def is_gameplay_piece : ShapeName → Bool
  | Straight _ | Square _ | Tee _ | Ell _ | Slew _ => true
  | LetterT _ | LetterE _ | LetterR _ | LetterI _ | LetterS _ => false

/-- The `if let ShapeName::Square(_)` guard of the rotation functions. -/
def is_square : ShapeName → Bool
  | Square _ => true
  | _ => false

/-- Embedding of `ShapeName::new_straight`. -/
def new_straight : ShapeName :=
  Straight [⟨0, -1⟩, ⟨0, 0⟩, ⟨0, 1⟩, ⟨0, 2⟩]

/-- Embedding of `ShapeName::new_square`. -/
def new_square : ShapeName :=
  Square [⟨0, 0⟩, ⟨1, 0⟩, ⟨0, 1⟩, ⟨1, 1⟩]

/-- Embedding of `ShapeName::new_tee`. -/
def new_tee : ShapeName :=
  Tee [⟨-1, 0⟩, ⟨0, 0⟩, ⟨1, 0⟩, ⟨0, 1⟩]

/-- Embedding of `ShapeName::new_ell`. -/
def new_ell : ShapeName :=
  Ell [⟨0, -1⟩, ⟨0, 0⟩, ⟨0, 1⟩, ⟨1, 1⟩]

/-- Embedding of `ShapeName::new_slew`. -/
def new_slew : ShapeName :=
  Slew [⟨-1, 0⟩, ⟨0, 0⟩, ⟨0, 1⟩, ⟨1, 1⟩]

/-- Embedding of `ShapeName::rotate_clockwise`: display pieces and the square are no-ops,
every other piece rotates each offset clockwise in place. -/
def rotate_clockwise (s : ShapeName) : ShapeName :=
  if !s.is_gameplay_piece then s
  else if s.is_square then s
  else
    match s with
    | Straight dims => Straight (dims.map ShapeDimension.rotate_clockwise)
    | Square dims => Square dims
    | Tee dims => Tee (dims.map ShapeDimension.rotate_clockwise)
    | Ell dims => Ell (dims.map ShapeDimension.rotate_clockwise)
    | Slew dims => Slew (dims.map ShapeDimension.rotate_clockwise)
    | s => s

/-- Embedding of `ShapeName::rotate_counter_clockwise`. -/
def rotate_counter_clockwise (s : ShapeName) : ShapeName :=
  if !s.is_gameplay_piece then s
  else if s.is_square then s
  else
    match s with
    | Straight dims => Straight (dims.map ShapeDimension.rotate_counter_clockwise)
    | Square dims => Square dims
    | Tee dims => Tee (dims.map ShapeDimension.rotate_counter_clockwise)
    | Ell dims => Ell (dims.map ShapeDimension.rotate_counter_clockwise)
    | Slew dims => Slew (dims.map ShapeDimension.rotate_counter_clockwise)
    | s => s

end ShapeName

/-- Embedding of `TetrisShapeNode` from `src/src/tetris_shape.rs`.  The fall/DAS timing
fields, velocity and pixel-layout fields are omitted: no claim below touches
them. -/
structure TetrisShapeNode where
  cell_x : Int
  cell_y : Int
  stopped : Bool
  shape_name : ShapeName
  color : Color
  grid_width_cells : Nat
  grid_height_cells : Nat

namespace TetrisShapeNode

/-- Embedding of `TetrisShapeNode::get_occupied_cells_at_position` (offsets are integral,
so `.round()` is the identity). -/
def get_occupied_cells_at_position (n : TetrisShapeNode) (cell_x cell_y : Int) :
    List (Int × Int) :=
  n.shape_name.get_dimensions.map (fun dim => (cell_x + dim.x, cell_y + dim.y))

/-- Embedding of `TetrisShapeNode::get_occupied_cells`. -/
def get_occupied_cells (n : TetrisShapeNode) : List (Int × Int) :=
  n.get_occupied_cells_at_position n.cell_x n.cell_y

/-- Embedding of `TetrisShapeNode::is_position_valid` (`src/src/tetris_shape.rs` lines
441-465): every cell must be inside `[0, W) × [0, H)` and unoccupied. -/
def is_position_valid (n : TetrisShapeNode) (test_cell_x test_cell_y : Int)
    (grid : Grid) : Bool :=
  (n.get_occupied_cells_at_position test_cell_x test_cell_y).all (fun c =>
    decide (0 ≤ c.1) && decide (c.1 < (n.grid_width_cells : Int)) &&
      decide (0 ≤ c.2) && decide (c.2 < (n.grid_height_cells : Int)) &&
      !(grid.is_cell_occupied c.1 c.2))

/-- The `for &offset in &WALL_KICK_OFFSETS` loop of
`TetrisShapeNode::rotate_clockwise_with_wall_kick`, entered with the geometry
already rotated; the `0` sentinel (and the unreachable loop exit) reverts the
rotation and fails. -/
def wallKickLoop (n : TetrisShapeNode) (grid : Grid) :
    List Int → TetrisShapeNode × Bool
  | [] => ({ n with shape_name := n.shape_name.rotate_counter_clockwise }, false)
  | offset :: rest =>
    if offset = 0 then
      ({ n with shape_name := n.shape_name.rotate_counter_clockwise }, false)
    else if n.is_position_valid (n.cell_x + offset) n.cell_y grid then
      ({ n with cell_x := n.cell_x + offset }, true)
    else wallKickLoop n grid rest

/-- Embedding of `TetrisShapeNode::rotate_clockwise_with_wall_kick` (`src/src/tetris_shape.rs`
lines 483-511), as a pure function returning the updated piece and the
success flag. -/
def rotate_clockwise_with_wall_kick (n : TetrisShapeNode) (grid : Grid) :
    TetrisShapeNode × Bool :=
  let rotated := { n with shape_name := n.shape_name.rotate_clockwise }
  if rotated.is_position_valid rotated.cell_x rotated.cell_y grid then (rotated, true)
  else wallKickLoop rotated grid [-1, 1, -2, 2, 0]

end TetrisShapeNode

/-- Embedding of `LEVEL_TRANSITION_DURATION` from `src/src/game.rs` (1.5 seconds). -/
def LEVEL_TRANSITION_DURATION : ℚ := 3 / 2

/-- Embedding of `GameState` from `src/src/game.rs`. -/
inductive GameState where
  | Playing
  | LevelTransition (timer : ℚ)
deriving DecidableEq

/-- Embedding of `Game` from `src/src/game.rs`, restricted to the fields the
level-transition arm of `Game::update` reads or writes (`active_piece`,
`score_manager` and `ui` are untouched by that arm). -/
structure Game where
  grid : Grid
  state : GameState

/-- The `GameState::LevelTransition { timer }` arm of `Game::update`
(`src/src/game.rs` lines 61-75): advance the timer by the frame delta; at or
past the duration clear the cascade and resume playing, otherwise stay in the
transition and push the new progress into the cascade animation. -/
def Game.update_level_transition (game : Game) (timer fixed_delta : ℚ) : Game :=
  let new_timer := timer + fixed_delta
  if LEVEL_TRANSITION_DURATION ≤ new_timer then
    { game with state := GameState.Playing
                grid := game.grid.clear_cascade_animation }
  else
    { game with state := GameState.LevelTransition new_timer
                grid := game.grid.update_cascade_animation
                  (new_timer / LEVEL_TRANSITION_DURATION) }

/-! ### Supporting lemmas: rotation geometry -/

/-- A counter-clockwise rotation undoes a clockwise rotation of one offset. -/
theorem ShapeDimension.counter_undoes_clockwise_offset (d : ShapeDimension) :
    d.rotate_clockwise.rotate_counter_clockwise = d := by
  cases d
  simp [ShapeDimension.rotate_clockwise, ShapeDimension.rotate_counter_clockwise]

/-- A counter-clockwise rotation undoes a clockwise rotation of any shape. -/
theorem ShapeName.counter_clockwise_clockwise (s : ShapeName) :
    s.rotate_clockwise.rotate_counter_clockwise = s := by
  cases s <;>
    simp [ShapeName.rotate_clockwise, ShapeName.rotate_counter_clockwise,
      ShapeName.is_gameplay_piece, ShapeName.is_square, List.map_map,
      Function.comp_def, ShapeDimension.counter_undoes_clockwise_offset]

/-! ### C6 -/

/-- C6: for every non-square gameplay piece geometry, `rotate_clockwise`
followed by `rotate_counter_clockwise` restores the exact original offsets,
and the per-offset maps are `(dx,dy) → (dy,-dx)` and `(dx,dy) → (-dy,dx)`;
for the square piece both rotations are no-ops. -/
theorem claim_C6_rotation_round_trip (s : ShapeName) :
    (s.is_gameplay_piece = true → s.is_square = false →
      s.rotate_clockwise.rotate_counter_clockwise = s ∧
        s.rotate_clockwise.get_dimensions =
          s.get_dimensions.map (fun d => ⟨d.y, -d.x⟩) ∧
        s.rotate_counter_clockwise.get_dimensions =
          s.get_dimensions.map (fun d => ⟨-d.y, d.x⟩)) ∧
    (s.is_square = true →
      s.rotate_clockwise = s ∧ s.rotate_counter_clockwise = s) := by
  constructor
  · intro hg hs
    refine ⟨ShapeName.counter_clockwise_clockwise s, ?_, ?_⟩ <;>
      cases s <;>
        simp_all [ShapeName.rotate_clockwise, ShapeName.rotate_counter_clockwise,
          ShapeName.is_gameplay_piece, ShapeName.is_square, ShapeName.get_dimensions,
          ShapeDimension.rotate_clockwise, ShapeDimension.rotate_counter_clockwise]
  · intro hs
    cases s <;> simp_all [ShapeName.rotate_clockwise,
      ShapeName.rotate_counter_clockwise, ShapeName.is_gameplay_piece,
      ShapeName.is_square]

/-- Witness for C6 at the T piece and the square piece. -/
theorem claim_C6_rotation_round_trip_witness :
    ShapeName.new_tee.is_gameplay_piece = true ∧
      ShapeName.new_tee.is_square = false ∧
      ShapeName.new_tee.rotate_clockwise.rotate_counter_clockwise =
        ShapeName.new_tee ∧
      ShapeName.new_square.is_square = true ∧
      ShapeName.new_square.rotate_clockwise = ShapeName.new_square :=
  ⟨rfl, rfl, ((claim_C6_rotation_round_trip ShapeName.new_tee).1 rfl rfl).1,
    rfl, ((claim_C6_rotation_round_trip ShapeName.new_square).2 rfl).1⟩

/-! ### C10 -/

/-- C10: `on_rows_cleared 0` awards 0 points and leaves the whole score state
unchanged. -/
theorem claim_C10_zero_rows_noop (s : ScoreManager) :
    s.on_rows_cleared 0 = (s, 0) := rfl

/-! ### C7 -/

/-- C7: `on_piece_landed_no_clear` resets `current_multiplier` to 1 and
`combo_count` to 0 (touching nothing else); `on_rows_cleared` with at least
one row — the only other mutator of these fields — strictly increments
`combo_count` and so never performs that reset; and after any clear followed
by a no-clear lock the state's `current_multiplier` (the next clear's
`previous_multiplier` factor) is 1. -/
theorem claim_C7_combo_reset (s : ScoreManager) :
    s.on_piece_landed_no_clear =
        { s with current_multiplier := 1, combo_count := 0 } ∧
      (∀ n : Nat, 1 ≤ n → s.combo_count + 1 < U32 →
        (s.on_rows_cleared n).1.combo_count = s.combo_count + 1 ∧
          (s.on_rows_cleared n).1.combo_count ≠ 0) ∧
      (∀ h : Nat, (s.set_high_score h).current_multiplier = s.current_multiplier ∧
        (s.set_high_score h).combo_count = s.combo_count) ∧
      (∀ n : Nat,
        ((s.on_rows_cleared n).1.on_piece_landed_no_clear).current_multiplier = 1 ∧
          ((s.on_rows_cleared n).1.on_piece_landed_no_clear).combo_count = 0) := by
  refine ⟨rfl, ?_, fun h => ⟨rfl, rfl⟩, fun n => ⟨rfl, rfl⟩⟩
  intro n hn hlt
  have hne : n ≠ 0 := by omega
  simp [ScoreManager.on_rows_cleared, hne, Nat.mod_eq_of_lt hlt]

/-- Witness for C7 from a fresh session after a single-line clear. -/
theorem claim_C7_combo_reset_witness :
    (1 : Nat) ≤ 1 ∧ (ScoreManager.new 0).combo_count + 1 < U32 ∧
      ((ScoreManager.new 0).on_rows_cleared 1).1.combo_count = 1 ∧
      (((ScoreManager.new 0).on_rows_cleared 1).1.on_piece_landed_no_clear).current_multiplier
        = 1 :=
  ⟨le_refl 1, by decide,
    ((claim_C7_combo_reset (ScoreManager.new 0)).2.1 1 (le_refl 1) (by decide)).1,
    ((claim_C7_combo_reset (ScoreManager.new 0)).2.2.2 1).1⟩

/-! ### C3 -/

/-- A 2-wide grid whose six rows (four spawn rows and two visible rows) are
all fully occupied, for exercising the spawn-buffer exception. -/
def fullGrid : Grid :=
  { width := 2
    height := 6
    visible_height := 2
    cell_size := 1
    occupied_cells := ⟨2, 6, List.replicate 6 [some 0, some 0]⟩
    cascading_cells := []
    is_cascading := false }

/-- C3: `can_move_down` is true unconditionally when any cell is at a
negative row — witnessed below a piece overlapping the fully occupied
`fullGrid` — and otherwise is false exactly when some cell sits on the grid
bottom or directly above an occupied cell. -/
theorem claim_C3_can_move_down :
    (∀ (g : Grid) (cells : List (Int × Int)),
      ((∃ c ∈ cells, c.2 < 0) → g.can_move_down cells = true) ∧
        ((∀ c ∈ cells, 0 ≤ c.2) →
          (g.can_move_down cells = false ↔
            ∃ c ∈ cells, (g.height : Int) ≤ c.2 + 1 ∨
              g.occupied_cells.has c.1 (c.2 + 1) = true))) ∧
      fullGrid.can_move_down [((0 : Int), (-1 : Int)), (0, 0)] = true := by
  refine ⟨fun g cells => ⟨?_, ?_⟩, by decide⟩
  · rintro ⟨c, hc, hneg⟩
    have hany : cells.any (fun c => decide (c.2 < 0)) = true := by
      simp only [List.any_eq_true, decide_eq_true_eq]
      exact ⟨c, hc, hneg⟩
    simp [Grid.can_move_down, hany]
  · intro hpos
    have hany : cells.any (fun c => decide (c.2 < 0)) = false := by
      simp only [List.any_eq_false, decide_eq_true_eq, not_lt]
      exact hpos
    simp only [Grid.can_move_down, hany, Bool.false_eq_true, if_false]
    constructor
    · intro hall
      rcases List.all_eq_false.mp hall with ⟨c, hc, hfail⟩
      have hfail' : (decide (c.2 + 1 < (g.height : Int)) &&
          !g.occupied_cells.has c.1 (c.2 + 1)) = false := by
        simpa using hfail
      refine ⟨c, hc, ?_⟩
      rcases Bool.and_eq_false_iff.mp hfail' with h | h
      · exact Or.inl (not_lt.mp (of_decide_eq_false h))
      · exact Or.inr (by simpa using h)
    · rintro ⟨c, hc, hblock⟩
      refine List.all_eq_false.mpr ⟨c, hc, ?_⟩
      rcases hblock with h | h
      · simp [decide_eq_false (not_lt.mpr h)]
      · simp [h]

/-- Witness for C3: in `fullGrid`, a piece entirely inside the visible area
with an occupied cell below cannot move down. -/
theorem claim_C3_can_move_down_witness :
    (∀ c ∈ [((0 : Int), (4 : Int))], 0 ≤ c.2) ∧
      (fullGrid.can_move_down [((0 : Int), (4 : Int))] = false ↔
        ∃ c ∈ [((0 : Int), (4 : Int))], (fullGrid.height : Int) ≤ c.2 + 1 ∨
          fullGrid.occupied_cells.has c.1 (c.2 + 1) = true) :=
  ⟨by decide, ((claim_C3_can_move_down.1 fullGrid [((0 : Int), (4 : Int))]).2
    (by decide))⟩

/-! ### C8 -/

/-- C8: in the `LevelTransition` state, one update step advances the timer by
the frame delta; below the 1.5-second duration the state stays in
`LevelTransition` with the cascade animation pushed to progress
`timer / duration`, at or past it the cascade is cleared and the state
returns to `Playing`; the resulting state is never `LevelTransition` with a
timer at or past the duration. -/
theorem claim_C8_level_transition (game : Game) (timer fixed_delta : ℚ) :
    (timer + fixed_delta < LEVEL_TRANSITION_DURATION →
      (game.update_level_transition timer fixed_delta).state =
          GameState.LevelTransition (timer + fixed_delta) ∧
        (game.update_level_transition timer fixed_delta).grid =
          game.grid.update_cascade_animation
            ((timer + fixed_delta) / LEVEL_TRANSITION_DURATION)) ∧
      (LEVEL_TRANSITION_DURATION ≤ timer + fixed_delta →
        (game.update_level_transition timer fixed_delta).state = GameState.Playing ∧
          (game.update_level_transition timer fixed_delta).grid.is_cascading = false ∧
          (game.update_level_transition timer fixed_delta).grid.cascading_cells = []) ∧
      (∀ t' : ℚ, (game.update_level_transition timer fixed_delta).state =
          GameState.LevelTransition t' → t' < LEVEL_TRANSITION_DURATION) := by
  unfold Game.update_level_transition
  by_cases h : LEVEL_TRANSITION_DURATION ≤ timer + fixed_delta
  · refine ⟨fun hlt => absurd h (not_le.mpr hlt), fun _ => ?_, fun t' ht' => ?_⟩
    · simp [h, Grid.clear_cascade_animation]
    · simp [h] at ht'
  · refine ⟨fun _ => ?_, fun hle => absurd hle h, fun t' ht' => ?_⟩
    · simp [h]
    · simp only [h, if_false] at ht'
      simp only [GameState.LevelTransition.injEq] at ht'
      exact ht' ▸ not_le.mp h

/-- A game mid-transition with one cascading cell, for the C8 witness. -/
def transitionGame : Game :=
  { grid := { fullGrid with is_cascading := true,
                            cascading_cells := [⟨0, 4, 0, 0, 800⟩] }
    state := GameState.LevelTransition 1 }

/-- Witness for C8: one step with the timer short of the duration keeps the
transition running, and one step past it returns to `Playing`. -/
theorem claim_C8_level_transition_witness :
    ((1 : ℚ) + 1 / 4 < LEVEL_TRANSITION_DURATION ∧
      (transitionGame.update_level_transition 1 (1 / 4)).state =
        GameState.LevelTransition (1 + 1 / 4)) ∧
      (LEVEL_TRANSITION_DURATION ≤ (1 : ℚ) + 1 ∧
        (transitionGame.update_level_transition 1 1).state = GameState.Playing) :=
  ⟨⟨by norm_num [LEVEL_TRANSITION_DURATION],
      ((claim_C8_level_transition transitionGame 1 (1 / 4)).1
        (by norm_num [LEVEL_TRANSITION_DURATION])).1⟩,
    ⟨by norm_num [LEVEL_TRANSITION_DURATION],
      ((claim_C8_level_transition transitionGame 1 1).2.1
        (by norm_num [LEVEL_TRANSITION_DURATION])).1⟩⟩

/-! ### C5 -/

/-- Modelled from the spec's wall-kick protocol: the rotation is accepted at
the first pivot offset in priority order `[0, -1, +1, -2, +2]` at which the
rotated geometry validates; with no validating offset the piece is returned
unchanged (geometry reverted, pivot untouched) with failure. -/
def wallKickSpec (n : TetrisShapeNode) (grid : Grid) : TetrisShapeNode × Bool :=
  let rotated := { n with shape_name := n.shape_name.rotate_clockwise }
  match ([0, -1, 1, -2, 2] : List Int).find?
      (fun off => rotated.is_position_valid (n.cell_x + off) n.cell_y grid) with
  | some off => ({ rotated with cell_x := n.cell_x + off }, true)
  | none => (n, false)

/-- C5: `rotate_clockwise_with_wall_kick` accepts the first validating pivot
offset in priority order `[0, -1, +1, -2, +2]` and otherwise reverts the
geometry, keeps the pivot, and fails; no outcome changes the pivot's row. -/
theorem claim_C5_wall_kick (n : TetrisShapeNode) (grid : Grid) :
    n.rotate_clockwise_with_wall_kick grid = wallKickSpec n grid ∧
      (n.rotate_clockwise_with_wall_kick grid).1.cell_y = n.cell_y := by
  have hrestore : ∀ m : TetrisShapeNode,
      ({ m with shape_name := m.shape_name.rotate_clockwise.rotate_counter_clockwise }
        : TetrisShapeNode) = m := by
    intro m
    rw [ShapeName.counter_clockwise_clockwise]
  have hmain : n.rotate_clockwise_with_wall_kick grid = wallKickSpec n grid := by
    unfold TetrisShapeNode.rotate_clockwise_with_wall_kick wallKickSpec
    by_cases h0 : ({ n with shape_name := n.shape_name.rotate_clockwise }
        : TetrisShapeNode).is_position_valid n.cell_x n.cell_y grid
    · simp [List.find?, h0, show n.cell_x + 0 = n.cell_x from by ring]
    · simp only [h0, Bool.false_eq_true, if_false]
      by_cases h1 : ({ n with shape_name := n.shape_name.rotate_clockwise }
          : TetrisShapeNode).is_position_valid (n.cell_x + -1) n.cell_y grid
      · simp [TetrisShapeNode.wallKickLoop, List.find?, h0, h1,
          show n.cell_x + 0 = n.cell_x from by ring]
      · by_cases h2 : ({ n with shape_name := n.shape_name.rotate_clockwise }
            : TetrisShapeNode).is_position_valid (n.cell_x + 1) n.cell_y grid
        · simp [TetrisShapeNode.wallKickLoop, List.find?, h0, h1, h2,
            show n.cell_x + 0 = n.cell_x from by ring]
        · by_cases h3 : ({ n with shape_name := n.shape_name.rotate_clockwise }
              : TetrisShapeNode).is_position_valid (n.cell_x + -2) n.cell_y grid
          · simp [TetrisShapeNode.wallKickLoop, List.find?, h0, h1, h2, h3,
              show n.cell_x + 0 = n.cell_x from by ring]
          · by_cases h4 : ({ n with shape_name := n.shape_name.rotate_clockwise }
                : TetrisShapeNode).is_position_valid (n.cell_x + 2) n.cell_y grid
            · simp [TetrisShapeNode.wallKickLoop, List.find?, h0, h1, h2, h3, h4,
                show n.cell_x + 0 = n.cell_x from by ring]
            · simp [TetrisShapeNode.wallKickLoop, List.find?, h0, h1, h2, h3, h4,
                show n.cell_x + 0 = n.cell_x from by ring, hrestore]
  refine ⟨hmain, ?_⟩
  rw [hmain]
  unfold wallKickSpec
  dsimp only
  split <;> rfl

/-! ### C2 -/

/-- The standard 10×(20+4) playfield with no occupied cells. -/
def emptyGrid : Grid := Grid.new 10 20 30

/-- A Straight piece at the spawn position (pivot at column 5, row 0), whose
topmost cell is at row `-1`, above the whole grid. -/
def straightNode : TetrisShapeNode :=
  { cell_x := 5
    cell_y := 0
    stopped := false
    shape_name := ShapeName.new_straight
    color := 0
    grid_width_cells := 10
    grid_height_cells := 24 }

/-- Counterexample to C2 as stated: on the empty standard grid, the Straight
piece at its spawn pivot has one cell at the negative row `-1`, every one of
its other cells is in bounds and unoccupied, yet `is_position_valid` rejects
the placement — a cell at a negative row does, by itself, make the placement
invalid (the `row ∈ [0, H)` bound applies to it). -/
theorem claim_C2_counterexample :
    straightNode.is_position_valid 5 0 emptyGrid = false ∧
      ((5 : Int), (-1 : Int)) ∈ straightNode.get_occupied_cells_at_position 5 0 ∧
      (∀ c ∈ straightNode.get_occupied_cells_at_position 5 0,
        c ≠ ((5 : Int), (-1 : Int)) →
          0 ≤ c.1 ∧ c.1 < (emptyGrid.width : Int) ∧ 0 ≤ c.2 ∧
            c.2 < (emptyGrid.height : Int) ∧
            emptyGrid.occupied_cells.has c.1 c.2 = false) := by
  decide

/-- Inside the grid bounds, `is_cell_occupied` is exactly the table lookup. -/
theorem Grid.is_cell_occupied_of_in_bounds (g : Grid) {x y : Int}
    (hx0 : 0 ≤ x) (hx : x < (g.width : Int)) (hy0 : 0 ≤ y)
    (hy : y < (g.height : Int)) :
    g.is_cell_occupied x y = g.occupied_cells.has x y := by
  unfold Grid.is_cell_occupied
  rw [if_neg]
  push_neg
  exact ⟨hx0, hx, hy0, hy⟩

/-- C2 (amended): a placement tested by `is_position_valid` is valid iff every
resulting cell has `col ∈ [0, W)`, `row ∈ [0, H)` and is unoccupied; a cell at
a negative row is out of bounds and makes the placement invalid (the spawn
buffer consists of rows `0 ≤ row < SPAWN_ROWS`, which are in bounds — negative
rows receive no special treatment here). -/
theorem claim_C2_collision_query (n : TetrisShapeNode) (g : Grid) (tx ty : Int)
    (hw : n.grid_width_cells = g.width) (hh : n.grid_height_cells = g.height) :
    (n.is_position_valid tx ty g = true ↔
      ∀ c ∈ n.get_occupied_cells_at_position tx ty,
        0 ≤ c.1 ∧ c.1 < (g.width : Int) ∧ 0 ≤ c.2 ∧ c.2 < (g.height : Int) ∧
          g.occupied_cells.has c.1 c.2 = false) ∧
      (∀ c ∈ n.get_occupied_cells_at_position tx ty, c.2 < 0 →
        n.is_position_valid tx ty g = false) := by
  have hmain : n.is_position_valid tx ty g = true ↔
      ∀ c ∈ n.get_occupied_cells_at_position tx ty,
        0 ≤ c.1 ∧ c.1 < (g.width : Int) ∧ 0 ≤ c.2 ∧ c.2 < (g.height : Int) ∧
          g.occupied_cells.has c.1 c.2 = false := by
    unfold TetrisShapeNode.is_position_valid
    rw [List.all_eq_true]
    constructor
    · intro h c hc
      have hcell := h c hc
      rw [hw, hh] at hcell
      simp only [Bool.and_eq_true, decide_eq_true_eq, Bool.not_eq_true'] at hcell
      obtain ⟨⟨⟨⟨h1, h2⟩, h3⟩, h4⟩, h5⟩ := hcell
      rw [Grid.is_cell_occupied_of_in_bounds g h1 h2 h3 h4] at h5
      exact ⟨h1, h2, h3, h4, h5⟩
    · intro h c hc
      obtain ⟨h1, h2, h3, h4, h5⟩ := h c hc
      rw [hw, hh]
      simp only [Bool.and_eq_true, decide_eq_true_eq, Bool.not_eq_true']
      rw [Grid.is_cell_occupied_of_in_bounds g h1 h2 h3 h4]
      exact ⟨⟨⟨⟨h1, h2⟩, h3⟩, h4⟩, h5⟩
  refine ⟨hmain, fun c hc hneg => ?_⟩
  cases hval : n.is_position_valid tx ty g with
  | false => rfl
  | true =>
    obtain ⟨-, -, h3, -, -⟩ := hmain.mp hval c hc
    omega

/-- Witness for C2 (amended): the Straight piece placed fully inside the
visible area of the empty grid validates. -/
theorem claim_C2_collision_query_witness :
    straightNode.grid_width_cells = emptyGrid.width ∧
      straightNode.grid_height_cells = emptyGrid.height ∧
      straightNode.is_position_valid 5 10 emptyGrid = true :=
  ⟨rfl, rfl,
    (claim_C2_collision_query straightNode emptyGrid 5 10 rfl rfl).1.mpr
      (by decide)⟩

/-! ### C1 -/

/-- The level multiplier is at least 1. -/
theorem level_multiplier_pos (level : Nat) : 1 ≤ level_multiplier level := by
  unfold level_multiplier
  split_ifs <;> norm_num

/-- C1: with at least one cleared row (and within the `u64` range, which every
reachable game state satisfies), `on_rows_cleared` returns and adds to the
score exactly `137 × rowsBonus × previousMultiplier × comboMultiplier ×
levelMultiplier`, with `comboMultiplier = 2^(comboCount)` for the pre-call
`comboCount` (the incremented count minus one) and the level bucketed at
clear time; `rowsBonus` is `2^n - 1` for `n > 4`; and from a fresh session at
level 0 a Tetris followed by an immediate second Tetris yields 2055 then
61650 points. -/
theorem claim_C1_scoring_formula (s : ScoreManager) (n : Nat)
    (h1 : 1 ≤ n) (h63 : n ≤ 63) (hc : s.combo_count ≤ 62)
    (hbase : s.base_points_per_row = 137)
    (hbound : s.score + 137 * rows_bonus_multiplier n * s.current_multiplier *
        2 ^ s.combo_count * level_multiplier s.level < U64) :
    ((s.on_rows_cleared n).2 =
        137 * rows_bonus_multiplier n * s.current_multiplier *
          2 ^ s.combo_count * level_multiplier s.level ∧
      (s.on_rows_cleared n).1.score =
        s.score + 137 * rows_bonus_multiplier n * s.current_multiplier *
          2 ^ s.combo_count * level_multiplier s.level) ∧
      (∀ m : Nat, 5 ≤ m → m ≤ 63 → rows_bonus_multiplier m = 2 ^ m - 1) ∧
      (((ScoreManager.new 0).on_rows_cleared 4).2 = 2055 ∧
        ((((ScoreManager.new 0).on_rows_cleared 4).1).on_rows_cleared 4).2 = 61650) := by
  have hgeneral : ∀ m : Nat, 5 ≤ m → m ≤ 63 → rows_bonus_multiplier m = 2 ^ m - 1 := by
    intro m hm5 hm63
    obtain ⟨k, rfl⟩ : ∃ k, m = k + 5 := ⟨m - 5, by omega⟩
    show ((1 <<< ((k + 5) % 64)) - 1) % U64 = 2 ^ (k + 5) - 1
    rw [Nat.mod_eq_of_lt (by omega : k + 5 < 64), Nat.shiftLeft_eq, one_mul]
    have hlt : (2 : Nat) ^ (k + 5) ≤ 2 ^ 63 := Nat.pow_le_pow_right (by norm_num) (by omega)
    exact Nat.mod_eq_of_lt (by unfold U64; omega)
  have hne : n ≠ 0 := by omega
  have hP : 137 * rows_bonus_multiplier n * s.current_multiplier *
      2 ^ s.combo_count * level_multiplier s.level < U64 := by omega
  have hcombo : (s.combo_count + 1) % U32 = s.combo_count + 1 :=
    Nat.mod_eq_of_lt (by unfold U32; omega)
  have hpow : (2 : Nat) ^ s.combo_count < U64 := by
    have : (2 : Nat) ^ s.combo_count ≤ 2 ^ 62 := Nat.pow_le_pow_right (by norm_num) hc
    unfold U64; omega
  have hshift : (1 <<< ((s.combo_count + 1 - 1) % 64)) % U64 = 2 ^ s.combo_count := by
    rw [Nat.add_sub_cancel, Nat.mod_eq_of_lt (by omega : s.combo_count < 64),
      Nat.shiftLeft_eq, one_mul]
    exact Nat.mod_eq_of_lt hpow
  have hpoints : ∀ B M C L : Nat, 137 * B * M * C * L < U64 → 1 ≤ C → 1 ≤ L →
      ((((137 * B % U64) * M % U64) * C % U64) * L) % U64 = 137 * B * M * C * L := by
    intro B M C L hPP hC hL
    rcases Nat.eq_zero_or_pos M with hM | hM
    · subst hM
      simp
    · have e1 : 137 * B ≤ 137 * B * M := Nat.le_mul_of_pos_right _ hM
      have e2 : 137 * B * M ≤ 137 * B * M * C := Nat.le_mul_of_pos_right _ hC
      have e3 : 137 * B * M * C ≤ 137 * B * M * C * L := Nat.le_mul_of_pos_right _ hL
      rw [Nat.mod_eq_of_lt (by omega : 137 * B < U64),
        Nat.mod_eq_of_lt (by omega : 137 * B * M < U64),
        Nat.mod_eq_of_lt (by omega : 137 * B * M * C < U64),
        Nat.mod_eq_of_lt hPP]
  refine ⟨?_, hgeneral, by decide, by decide⟩
  unfold ScoreManager.on_rows_cleared
  rw [if_neg hne]
  dsimp only
  rw [hbase, hcombo, hshift]
  rw [hpoints (rows_bonus_multiplier n) s.current_multiplier (2 ^ s.combo_count)
    (level_multiplier s.level) hP Nat.one_le_two_pow (level_multiplier_pos s.level)]
  exact ⟨rfl, Nat.mod_eq_of_lt hbound⟩

/-- Witness for C1 at a fresh session clearing a Tetris. -/
theorem claim_C1_scoring_formula_witness :
    ((1 : Nat) ≤ 4 ∧ (4 : Nat) ≤ 63 ∧ (ScoreManager.new 0).combo_count ≤ 62 ∧
      (ScoreManager.new 0).base_points_per_row = 137 ∧
      (ScoreManager.new 0).score + 137 * rows_bonus_multiplier 4 *
          (ScoreManager.new 0).current_multiplier *
          2 ^ (ScoreManager.new 0).combo_count *
          level_multiplier (ScoreManager.new 0).level < U64) ∧
      ((ScoreManager.new 0).on_rows_cleared 4).2 =
        137 * rows_bonus_multiplier 4 * (ScoreManager.new 0).current_multiplier *
          2 ^ (ScoreManager.new 0).combo_count *
          level_multiplier (ScoreManager.new 0).level :=
  ⟨⟨by decide, by decide, by decide, by decide, by decide⟩,
    ((claim_C1_scoring_formula (ScoreManager.new 0) 4 (by decide) (by decide)
      (by decide) (by decide) (by decide)).1).1⟩

/-! ### Supporting lemmas: clear-and-shift -/

/-- An all-empty row stores no cells. -/
theorem countSome_replicate {T : Type} (k : Nat) :
    countSome (List.replicate k (none : Option T)) = 0 := by
  induction k with
  | zero => rfl
  | succ k ih => simp [List.replicate_succ, countSome, List.countP_cons, ih]

namespace GameTable

/-- A full row forces positive width, an in-range index, and an exact count. -/
theorem is_row_full_facts {T : Type} (t : GameTable T) (r : Int)
    (h : t.is_row_full r = true) :
    0 < t.columns ∧ 0 ≤ r ∧ r < (t.rows : Int) ∧ r.toNat < t.data.length ∧
      countSome (t.data.getD r.toNat []) = t.columns := by
  unfold is_row_full is_valid_position at h
  simp only [Bool.and_eq_true, decide_eq_true_eq, beq_iff_eq] at h
  obtain ⟨⟨⟨⟨-, hcols⟩, hr0⟩, hrr⟩, hcount⟩ := h
  have hcolspos : 0 < t.columns := by omega
  refine ⟨hcolspos, hr0, hrr, ?_, hcount⟩
  by_contra hlen
  rw [List.getD_eq_default _ _ (by omega)] at hcount
  simp [countSome] at hcount
  omega

/-- A full row index is a valid position. -/
theorem full_valid {T : Type} (t : GameTable T) (r : Int)
    (h : t.is_row_full r = true) : t.is_valid_position 0 r = true :=
  (Bool.and_eq_true _ _ |>.mp h).1

/-- The `remove_row_and_shift_down` succeeds at every valid position. -/
theorem remove_snd {T : Type} (t : GameTable T) (r : Int)
    (hv : t.is_valid_position 0 r = true) :
    (t.remove_row_and_shift_down r).2 = true := by
  simp [remove_row_and_shift_down, hv]

/-- The `remove_row_and_shift_down` keeps the column count. -/
theorem remove_columns {T : Type} (t : GameTable T) (r : Int) :
    (t.remove_row_and_shift_down r).1.columns = t.columns := by
  unfold remove_row_and_shift_down
  split <;> rfl

/-- The `remove_row_and_shift_down` keeps the row count. -/
theorem remove_rows {T : Type} (t : GameTable T) (r : Int) :
    (t.remove_row_and_shift_down r).1.rows = t.rows := by
  unfold remove_row_and_shift_down
  split <;> rfl

/-- The `remove_row_and_shift_down` keeps `is_valid_position`. -/
theorem remove_valid_eq {T : Type} (t : GameTable T) (r c j : Int) :
    (t.remove_row_and_shift_down r).1.is_valid_position c j =
      t.is_valid_position c j := by
  unfold is_valid_position
  rw [remove_columns, remove_rows]

/-- Rows strictly below the removed row (larger indices) are untouched. -/
theorem remove_data_above {T : Type} (t : GameTable T) (r j : Int)
    (hv : t.is_valid_position 0 r = true) (hlen : r.toNat < t.data.length)
    (hj : r < j) :
    (t.remove_row_and_shift_down r).1.data.getD j.toNat [] =
      t.data.getD j.toNat [] := by
  have hr0 : 0 ≤ r := by
    unfold is_valid_position at hv
    simp only [Bool.and_eq_true, decide_eq_true_eq] at hv
    exact hv.1.2
  simp only [remove_row_and_shift_down, hv, if_true]
  rw [List.getD_eq_getElem?_getD, List.getD_eq_getElem?_getD]
  obtain ⟨k, hk⟩ : ∃ k, j.toNat = k + 1 := ⟨j.toNat - 1, by omega⟩
  have hkr : r.toNat ≤ k := by omega
  have htakelen : (t.data.take r.toNat).length = r.toNat := by
    rw [List.length_take]; omega
  rw [hk, List.getElem?_cons_succ,
    List.getElem?_append_right (by omega : (t.data.take r.toNat).length ≤ k),
    htakelen, List.getElem?_drop]
  have harith : r.toNat + 1 + (k - r.toNat) = k + 1 := by omega
  rw [harith]

/-- Rows above the removed row (smaller indices) shift down by one. -/
theorem remove_data_below {T : Type} (t : GameTable T) (r j : Int)
    (hv : t.is_valid_position 0 r = true) (hlen : r.toNat < t.data.length)
    (hj0 : 0 ≤ j) (hjr : j < r) :
    (t.remove_row_and_shift_down r).1.data.getD (j + 1).toNat [] =
      t.data.getD j.toNat [] := by
  simp only [remove_row_and_shift_down, hv, if_true]
  rw [List.getD_eq_getElem?_getD, List.getD_eq_getElem?_getD]
  have hjt : (j + 1).toNat = j.toNat + 1 := by omega
  have hjk : j.toNat < r.toNat := by omega
  have htakelen : (t.data.take r.toNat).length = r.toNat := by
    rw [List.length_take]; omega
  rw [hjt, List.getElem?_cons_succ,
    List.getElem?_append_left (by omega : j.toNat < (t.data.take r.toNat).length),
    List.getElem?_take_of_lt hjk]

/-- After the shift the top row is empty. -/
theorem remove_data_zero {T : Type} (t : GameTable T) (r : Int)
    (hv : t.is_valid_position 0 r = true) :
    (t.remove_row_and_shift_down r).1.data.getD 0 [] =
      List.replicate t.columns (none : Option T) := by
  simp [remove_row_and_shift_down, hv]

/-- The clear-and-shift removes exactly the cells of the cleared row. -/
theorem remove_totalSome {T : Type} (t : GameTable T) (r : Int)
    (hv : t.is_valid_position 0 r = true) (hlen : r.toNat < t.data.length) :
    totalSome (t.remove_row_and_shift_down r).1.data +
      countSome (t.data.getD r.toNat []) = totalSome t.data := by
  simp only [remove_row_and_shift_down, hv, if_true]
  have hgetd : t.data.getD r.toNat [] = t.data[r.toNat] := by
    rw [List.getD_eq_getElem?_getD, List.getElem?_eq_getElem hlen, Option.getD_some]
  conv_rhs =>
    rw [show t.data = t.data.take r.toNat ++ t.data.drop r.toNat from
      (List.take_append_drop _ _).symm, List.drop_eq_getElem_cons hlen]
  simp only [totalSome, List.map_cons, List.map_append, List.sum_cons,
    List.sum_append, countSome_replicate, hgetd]
  omega

end GameTable

namespace GameTable

/-- Fullness of rows below the cleared row is unchanged by the shift. -/
theorem remove_full_above {T : Type} (t : GameTable T) (r j : Int)
    (hfull : t.is_row_full r = true) (hj : r < j) :
    (t.remove_row_and_shift_down r).1.is_row_full j = t.is_row_full j := by
  obtain ⟨-, -, -, hlen, -⟩ := is_row_full_facts t r hfull
  unfold is_row_full
  rw [remove_valid_eq, remove_columns,
    remove_data_above t r j (full_valid t r hfull) hlen hj]

/-- Fullness of a row at or above the cleared row (index in `[1, r]`) is the
fullness of the row that shifted into it. -/
theorem remove_full_shift {T : Type} (t : GameTable T) (r j : Int)
    (hfull : t.is_row_full r = true) (hj1 : 1 ≤ j) (hjr : j ≤ r) :
    (t.remove_row_and_shift_down r).1.is_row_full j = t.is_row_full (j - 1) := by
  obtain ⟨hcols, hr0, hrr, hlen, -⟩ := is_row_full_facts t r hfull
  have hv := full_valid t r hfull
  have hvj : t.is_valid_position 0 j = true := by
    unfold is_valid_position
    simp only [Bool.and_eq_true, decide_eq_true_eq]
    omega
  have hvj1 : t.is_valid_position 0 (j - 1) = true := by
    unfold is_valid_position
    simp only [Bool.and_eq_true, decide_eq_true_eq]
    omega
  have hdata := remove_data_below t r (j - 1) hv hlen (by omega) (by omega)
  rw [show j - 1 + 1 = j from by ring] at hdata
  unfold is_row_full
  rw [remove_valid_eq, remove_columns, hvj, hvj1, hdata]

end GameTable

/-- The loop never changes the table dimensions. -/
theorem clearLoop_dims {T : Type} :
    ∀ (fuel : Nat) (t : GameTable T) (rowY : Int) (count : Nat),
      (clearLoop fuel t rowY count).1.columns = t.columns ∧
        (clearLoop fuel t rowY count).1.rows = t.rows := by
  intro fuel
  induction fuel with
  | zero => intro t rowY count; exact ⟨rfl, rfl⟩
  | succ fuel ih =>
    intro t rowY count
    unfold clearLoop
    by_cases h4 : (SPAWN_ROWS : Int) ≤ rowY
    · by_cases hfull : t.is_row_full rowY = true
      · by_cases hok : (t.remove_row_and_shift_down rowY).2 = true
        · simp only [h4, if_true, hfull, hok]
          refine ⟨?_, ?_⟩
          · rw [(ih _ _ _).1, GameTable.remove_columns]
          · rw [(ih _ _ _).2, GameTable.remove_rows]
        · simp only [h4, if_true, hfull, hok, Bool.false_eq_true, if_false]
          refine ⟨?_, ?_⟩
          · rw [(ih _ _ _).1, GameTable.remove_columns]
          · rw [(ih _ _ _).2, GameTable.remove_rows]
      · simp only [h4, if_true, Bool.not_eq_true] at hfull ⊢
        simp only [hfull, Bool.false_eq_true, if_false]
        exact ih _ _ _
    · simp [h4]

/-- If no row from the first visible row up to the cursor is full, the loop
leaves the table and the count unchanged. -/
theorem clearLoop_skip {T : Type} :
    ∀ (fuel : Nat) (t : GameTable T) (rowY : Int) (count : Nat),
      (∀ j : Int, (SPAWN_ROWS : Int) ≤ j → j ≤ rowY → t.is_row_full j = false) →
      clearLoop fuel t rowY count = (t, count) := by
  intro fuel
  induction fuel with
  | zero => intro t rowY count _; rfl
  | succ fuel ih =>
    intro t rowY count h
    unfold clearLoop
    by_cases h4 : (SPAWN_ROWS : Int) ≤ rowY
    · simp only [h4, if_true, h rowY h4 le_rfl, Bool.false_eq_true, if_false]
      exact ih t (rowY - 1) count (fun j hj4 hjY => h j hj4 (by omega))
    · simp only [h4, if_false]

/-- With exactly one full row `r`, the scan walks down to `r`, clears it once,
finds nothing else (the shifted-in rows were not full), and stops with count 1
and the shifted table. -/
theorem clearLoop_single {T : Type} :
    ∀ (fuel : Nat) (t : GameTable T) (rowY : Int) (count : Nat) (r : Int),
      totalSome t.data + (rowY + 1).toNat ≤ fuel →
      (SPAWN_ROWS : Int) ≤ r → r ≤ rowY → rowY < (t.rows : Int) →
      t.is_row_full r = true →
      (∀ j : Int, 0 ≤ j → j < (t.rows : Int) → j ≠ r → t.is_row_full j = false) →
      clearLoop fuel t rowY count = ((t.remove_row_and_shift_down r).1, count + 1) := by
  intro fuel
  induction fuel with
  | zero =>
    intro t rowY count r hfuel h4 hr hrows hfull honly
    exfalso
    have hs4 : (SPAWN_ROWS : Int) = 4 := rfl
    omega
  | succ fuel ih =>
    intro t rowY count r hfuel h4 hr hrows hfull honly
    have hs4 : (SPAWN_ROWS : Int) = 4 := rfl
    have h4Y : (SPAWN_ROWS : Int) ≤ rowY := le_trans h4 hr
    unfold clearLoop
    rw [if_pos h4Y]
    rcases eq_or_lt_of_le hr with heq | hlt
    · subst heq
      have hok := GameTable.remove_snd t r (GameTable.full_valid t r hfull)
      simp only [hfull, if_true, hok]
      apply clearLoop_skip
      intro j hj4 hjr
      rw [GameTable.remove_full_shift t r j hfull (by omega) hjr]
      exact honly (j - 1) (by omega) (by omega) (by omega)
    · have hYfull : t.is_row_full rowY = false := honly rowY (by omega) hrows (by omega)
      simp only [hYfull, Bool.false_eq_true, if_false]
      exact ih t (rowY - 1) count r (by omega) h4 (by omega) (by omega) hfull honly

/-- Loop invariant behind C9: if every row below the cursor (larger index) is
already not full, then after the loop finishes no visible row is full. -/
theorem clearLoop_no_full {T : Type} :
    ∀ (fuel : Nat) (t : GameTable T) (rowY : Int) (count : Nat),
      totalSome t.data + (rowY + 1).toNat ≤ fuel →
      (∀ j : Int, rowY < j → j < (t.rows : Int) → t.is_row_full j = false) →
      ∀ j : Int, (SPAWN_ROWS : Int) ≤ j → j < (t.rows : Int) →
        (clearLoop fuel t rowY count).1.is_row_full j = false := by
  intro fuel
  induction fuel with
  | zero =>
    intro t rowY count hfuel habove j hj4 hjr
    have hs4 : (SPAWN_ROWS : Int) = 4 := rfl
    exact habove j (by omega) hjr
  | succ fuel ih =>
    intro t rowY count hfuel habove j hj4 hjr
    have hs4 : (SPAWN_ROWS : Int) = 4 := rfl
    unfold clearLoop
    by_cases h4Y : (SPAWN_ROWS : Int) ≤ rowY
    · by_cases hfull : t.is_row_full rowY = true
      · have hv := GameTable.full_valid t rowY hfull
        have hok := GameTable.remove_snd t rowY hv
        simp only [h4Y, if_true, hfull, hok]
        obtain ⟨hcols, hr0, hrr, hlen, hcount⟩ := GameTable.is_row_full_facts t rowY hfull
        have htot := GameTable.remove_totalSome t rowY hv hlen
        refine ih (t.remove_row_and_shift_down rowY).1 rowY (count + 1)
          (by omega) ?_ j hj4 ?_
        · intro j' hj' hj'r
          rw [GameTable.remove_rows] at hj'r
          rw [GameTable.remove_full_above t rowY j' hfull hj']
          exact habove j' hj' hj'r
        · rw [GameTable.remove_rows]
          exact hjr
      · simp only [Bool.not_eq_true] at hfull
        simp only [h4Y, if_true, hfull, Bool.false_eq_true, if_false]
        refine ih t (rowY - 1) count (by omega) ?_ j hj4 hjr
        intro j' hj' hj'r
        rcases eq_or_lt_of_le (by omega : rowY ≤ j') with heq | hlt
        · rw [← heq]; exact hfull
        · exact habove j' hlt hj'r
    · simp only [h4Y, if_false]
      exact habove j (by omega) hjr

namespace GameTable

/-- The `get` below the cleared row (larger indices) is unchanged. -/
theorem remove_get_above {T : Type} (t : GameTable T) (r j col : Int)
    (hfull : t.is_row_full r = true) (hj : r < j) :
    (t.remove_row_and_shift_down r).1.get col j = t.get col j := by
  obtain ⟨-, -, -, hlen, -⟩ := is_row_full_facts t r hfull
  unfold get
  rw [remove_valid_eq,
    remove_data_above t r j (full_valid t r hfull) hlen hj]

/-- The `get` above the cleared row: row `j` reappears at row `j + 1` with its
original contents. -/
theorem remove_get_below {T : Type} (t : GameTable T) (r j col : Int)
    (hfull : t.is_row_full r = true) (hj0 : 0 ≤ j) (hjr : j < r) :
    (t.remove_row_and_shift_down r).1.get col (j + 1) = t.get col j := by
  obtain ⟨hcols, hr0, hrr, hlen, -⟩ := is_row_full_facts t r hfull
  have hv := full_valid t r hfull
  have hvalid : t.is_valid_position col (j + 1) = t.is_valid_position col j := by
    unfold is_valid_position
    have e1 : decide ((0 : Int) ≤ j + 1) = true := by simp; omega
    have e2 : decide (j + 1 < (t.rows : Int)) = true := by simp; omega
    have e3 : decide ((0 : Int) ≤ j) = true := by simp; omega
    have e4 : decide (j < (t.rows : Int)) = true := by simp; omega
    rw [e1, e2, e3, e4]
  unfold get
  rw [remove_valid_eq, hvalid, remove_data_below t r j hv hlen hj0 hjr]

/-- The `get` at the top row is empty after the shift. -/
theorem remove_get_zero {T : Type} (t : GameTable T) (r col : Int)
    (hfull : t.is_row_full r = true) :
    (t.remove_row_and_shift_down r).1.get col 0 = none := by
  have hv := full_valid t r hfull
  unfold get
  rw [remove_valid_eq]
  by_cases hval : t.is_valid_position col 0 = true
  · rw [hval]
    simp only [if_true]
    show ((t.remove_row_and_shift_down r).1.data.getD (0 : Int).toNat []).getD
        col.toNat none = none
    rw [show ((0 : Int).toNat) = 0 from rfl, remove_data_zero t r hv,
      List.getD_eq_getElem?_getD, List.getElem?_replicate]
    split <;> rfl
  · simp [hval]

end GameTable

/-! ### C4 -/

/-- C4: with exactly one full row `r` in the visible region, `clear_completed_lines`
returns 1; after the bottom-to-top scan with same-index re-testing, every cell
previously at a row above `r` (smaller index) is one row further down with its
original color, the rows below `r` are untouched, and the top row is empty
(row `r`'s previous contents are gone, replaced by the row that shifted in). -/
theorem claim_C4_single_line_clear (g : Grid) (r : Int)
    (hrows : g.occupied_cells.rows = g.height)
    (hr4 : (SPAWN_ROWS : Int) ≤ r) (hrH : r < (g.height : Int))
    (hfull : g.occupied_cells.is_row_full r = true)
    (honly : ∀ j : Nat, j < g.height → (j : Int) ≠ r →
      g.occupied_cells.is_row_full (j : Int) = false) :
    (g.clear_completed_lines).2 = 1 ∧
      (∀ col j : Int, r < j →
        (g.clear_completed_lines).1.occupied_cells.get col j =
          g.occupied_cells.get col j) ∧
      (∀ col j : Int, 0 ≤ j → j < r →
        (g.clear_completed_lines).1.occupied_cells.get col (j + 1) =
          g.occupied_cells.get col j) ∧
      (∀ col : Int, (g.clear_completed_lines).1.occupied_cells.get col 0 = none) := by
  have honly' : ∀ j : Int, 0 ≤ j → j < (g.occupied_cells.rows : Int) → j ≠ r →
      g.occupied_cells.is_row_full j = false := by
    intro j h0 hjr hne
    have hcast : ((j.toNat : Nat) : Int) = j := Int.toNat_of_nonneg h0
    have hlt : j.toNat < g.height := by omega
    have := honly j.toNat hlt (by rw [hcast]; exact hne)
    rwa [hcast] at this
  have hadq : totalSome g.occupied_cells.data + ((g.height : Int) - 1 + 1).toNat ≤
      totalSome g.occupied_cells.data + g.height + 1 := by omega
  have hsingle := clearLoop_single
    (totalSome g.occupied_cells.data + g.height + 1) g.occupied_cells
    ((g.height : Int) - 1) 0 r hadq hr4 (by omega) (by rw [hrows]; omega)
    hfull honly'
  unfold Grid.clear_completed_lines
  dsimp only
  rw [hsingle]
  refine ⟨rfl, ?_, ?_, ?_⟩
  · intro col j hj
    exact GameTable.remove_get_above g.occupied_cells r j col hfull hj
  · intro col j hj0 hjr
    exact GameTable.remove_get_below g.occupied_cells r j col hfull hj0 hjr
  · intro col
    exact GameTable.remove_get_zero g.occupied_cells r col hfull

/-- A 2-wide grid whose only full row is the bottom row (index 5), with one
extra cell in the row above it. -/
def singleFullGrid : Grid :=
  { width := 2
    height := 6
    visible_height := 2
    cell_size := 1
    occupied_cells := ⟨2, 6, [[none, none], [none, none], [none, none],
      [none, none], [some 1, none], [some 2, some 3]]⟩
    cascading_cells := []
    is_cascading := false }

/-- Witness for C4 on `singleFullGrid` with full row 5. -/
theorem claim_C4_single_line_clear_witness :
    (singleFullGrid.occupied_cells.rows = singleFullGrid.height ∧
      (SPAWN_ROWS : Int) ≤ 5 ∧ (5 : Int) < (singleFullGrid.height : Int) ∧
      singleFullGrid.occupied_cells.is_row_full 5 = true) ∧
      (singleFullGrid.clear_completed_lines).2 = 1 :=
  ⟨⟨rfl, by decide, by decide, by decide⟩,
    (claim_C4_single_line_clear singleFullGrid 5 rfl (by decide) (by decide)
      (by decide)
      (by intro j hj hne
          have hj6 : j < 6 := hj
          interval_cases j <;> first | decide | (exfalso; omega))).1⟩

/-! ### C9 -/

/-- C9: after `clear_completed_lines` returns, no row in the visible region
(row index at or past `SPAWN_ROWS`) of the occupancy grid is full — the
same-index re-test clears rows shifted into a cleared position before the
scan moves on. -/
theorem claim_C9_no_full_rows (g : Grid)
    (hrows : g.occupied_cells.rows = g.height) :
    ∀ row : Int, (SPAWN_ROWS : Int) ≤ row → row < (g.height : Int) →
      (g.clear_completed_lines).1.occupied_cells.is_row_full row = false := by
  intro row h4 hH
  unfold Grid.clear_completed_lines
  dsimp only
  apply clearLoop_no_full
  · omega
  · intro j hj hjr
    rw [hrows] at hjr
    exfalso
    omega
  · exact h4
  · rw [hrows]
    exact hH

/-- Witness for C9 on `singleFullGrid`: the formerly full bottom row is no
longer full after the clear. -/
theorem claim_C9_no_full_rows_witness :
    singleFullGrid.occupied_cells.rows = singleFullGrid.height ∧
      (SPAWN_ROWS : Int) ≤ 5 ∧ (5 : Int) < (singleFullGrid.height : Int) ∧
      (singleFullGrid.clear_completed_lines).1.occupied_cells.is_row_full 5 = false :=
  ⟨rfl, by decide, by decide,
    claim_C9_no_full_rows singleFullGrid rfl 5 (by decide) (by decide)⟩
